import Mathlib

/-!
Verification of the viewer lifecycle and coordination logic of
`src/ts/ImageViewer.ts` (PixivBatchDownloader).

The TypeScript class `ImageViewer` is shallowly embedded below: its pure
computations become Lean functions, and its side effects (loading overlay,
metadata fetch, DOM insertion, widget construction, event dispatch, toasts)
become explicit effect traces produced in the same order as the source
statements.  External collaborators (`Tools`, `API`, the `Viewer` widget,
`loading`, `toast`, `EVT`) are parameters or trace entries, matching the
narrow contracts through which the source calls them.
-/

namespace ImageViewer

/-- `InsertPosition` in the DOM sense, the type of `cfg.insertPostion`. -/
inductive InsertPosition where
  | beforebegin
  | afterbegin
  | beforeend
  | afterend
deriving DecidableEq, Repr

/-- The image-size variants accepted by `cfg.imageSize`. -/
inductive ImageSize where
  | original
  | regular
  | small
deriving DecidableEq, Repr

/-- The `Config` interface: all parameters of the viewer, after defaults are
applied. -/
structure Config where
  workId : String
  showImageList : Bool
  imageListId : String
  insertTarget : String
  insertPostion : InsertPosition
  imageNumber : Int
  imageSize : ImageSize
  showDownloadBtn : Bool
  showBookmarkBtn : Bool
  autoStart : Bool
  showLoading : Bool
deriving DecidableEq, Repr

/-- The `ConfigOptional` interface: every field optional. -/
structure ConfigOptional where
  workId : Option String := none
  showImageList : Option Bool := none
  imageListId : Option String := none
  insertTarget : Option String := none
  insertPostion : Option InsertPosition := none
  imageNumber : Option Int := none
  imageSize : Option ImageSize := none
  showDownloadBtn : Option Bool := none
  showBookmarkBtn : Option Bool := none
  autoStart : Option Bool := none
  showLoading : Option Bool := none
deriving DecidableEq, Repr

/-- The default configuration (field initializer of `private cfg`).
`Tools.getIllustId()` is an external collaborator, so the work id it derives
from the page is a parameter. -/
def defaultConfig (workIdFromPage : String) : Config where
  workId := workIdFromPage
  showImageList := false
  imageListId := ""
  insertTarget := ""
  insertPostion := .beforeend
  imageNumber := 2
  imageSize := .original
  showDownloadBtn := true
  showBookmarkBtn := true
  autoStart := false
  showLoading := false

/-- `Object.assign(this.cfg, cfg)` in the constructor: supplied fields
overlay the defaults. -/
def mergeConfig (base : Config) (opt : ConfigOptional) : Config where
  workId := opt.workId.getD base.workId
  showImageList := opt.showImageList.getD base.showImageList
  imageListId := opt.imageListId.getD base.imageListId
  insertTarget := opt.insertTarget.getD base.insertTarget
  insertPostion := opt.insertPostion.getD base.insertPostion
  imageNumber := opt.imageNumber.getD base.imageNumber
  imageSize := opt.imageSize.getD base.imageSize
  showDownloadBtn := opt.showDownloadBtn.getD base.showDownloadBtn
  showBookmarkBtn := opt.showBookmarkBtn.getD base.showBookmarkBtn
  autoStart := opt.autoStart.getD base.autoStart
  showLoading := opt.showLoading.getD base.showLoading

/-- The per-resolution URLs of `body.urls`. An unavailable variant is the
empty string (falsy in JS). -/
structure Urls where
  original : String
  regular : String
  small : String
  thumb : String
deriving DecidableEq, Repr

/-- `body.urls[this.cfg.imageSize]`. -/
def urlForSize (u : Urls) : ImageSize → String
  | .original => u.original
  | .regular => u.regular
  | .small => u.small

/-- `body.urls[this.cfg.imageSize] || body.urls.original`: the requested
variant, falling back to the original-resolution URL when the requested one
is falsy (empty). -/
def resolveBigURL (u : Urls) (s : ImageSize) : String :=
  if urlForSize u s = "" then u.original else urlForSize u s

/-- The fields of `ArtworkData.body` that `ImageViewer` reads. -/
structure ArtworkBody where
  illustType : Int
  pageCount : Nat
  urls : Urls
deriving DecidableEq, Repr

/-- `p.isPrefixOf`-style check written out: does `l` start with `p`? -/
def listStartsWith : List Char → List Char → Bool
  | [], _ => true
  | _ :: _, [] => false
  | p :: ps, c :: cs => p = c && listStartsWith ps cs

/-- Replace the first occurrence of `pat` by `rep` in `l`; if `pat` does not
occur, return `l` unchanged.  This is the semantics of JavaScript
`String.prototype.replace` with a string pattern, as used in
`useBigURL.replace('p0', 'p' + index)`. -/
def listReplaceFirst (pat rep : List Char) : List Char → List Char
  | [] => []
  | c :: cs =>
    if listStartsWith pat (c :: cs) then rep ++ (c :: cs).drop pat.length
    else c :: listReplaceFirst pat rep cs

/-- JavaScript `s.replace(pat, rep)` (string pattern: first occurrence only). -/
def jsReplaceFirst (s pat rep : String) : String :=
  ⟨listReplaceFirst pat.data rep.data s.data⟩

/-- Does `pat` occur as a contiguous sublist of `l`? -/
def listOccurs (pat : List Char) : List Char → Bool
  | [] => listStartsWith pat []
  | c :: cs => listStartsWith pat (c :: cs) || listOccurs pat cs

/-- One `<li><img src=... data-src=...></li>` entry of the thumbnail list,
as generated at loop index `index` in `createImageList`.  `thumbSrc` is the
result of the external `Tools.convertArtworkThumbURL(body.urls.thumb, index)`
and `dataSrc` is the full-image URL `useBigURL.replace('p0', 'p' + index)`. -/
structure ThumbnailEntry where
  index : Nat
  thumbSrc : String
  dataSrc : String
deriving DecidableEq, Repr

/-- The thumbnail entry generated at loop index `i`. -/
def mkThumbnailEntry (convertThumb : String → Nat → String) (thumbURL useBigURL : String)
    (i : Nat) : ThumbnailEntry :=
  { index := i
    thumbSrc := convertThumb thumbURL i
    dataSrc := jsReplaceFirst useBigURL "p0" ("p" ++ toString i) }

/-- The loop `for (let index = 0; index < body.pageCount; index++)`:
the ordered thumbnail list. -/
def buildImageList (convertThumb : String → Nat → String) (thumbURL useBigURL : String)
    (pageCount : Nat) : List ThumbnailEntry :=
  (List.range pageCount).map (mkThumbnailEntry convertThumb thumbURL useBigURL)

/-- Observable side effects of `createImageList`, in statement order.
`setLoading b` is `loading.show = b`; `fetchMetadata` is
`API.getArtworkData`; `insertList pos target` is
`target.insertAdjacentElement(pos, this.viewerWarpper)` on the element found
by `document.querySelector(target)`; `configureViewer` is the call that
constructs the `Viewer` widget. -/
inductive Effect where
  | setLoading (b : Bool)
  | fetchMetadata (workId : String)
  | insertList (pos : InsertPosition) (target : String)
  | configureViewer (pageCount : Nat) (useBigURL : String)
deriving DecidableEq, Repr

/-- The activation gate of `createImageList` (lines 227–233): the media type
must be one of the three accepted tags and the page count must reach the
configured threshold. -/
def gatePasses (cfg : Config) (body : ArtworkBody) : Prop :=
  (body.illustType = 0 ∨ body.illustType = 1 ∨ body.illustType = 2) ∧
    (body.pageCount : Int) ≥ cfg.imageNumber

instance (cfg : Config) (body : ArtworkBody) : Decidable (gatePasses cfg body) := by
  unfold gatePasses; infer_instance

/-- The body of `createImageList` after the insertion-target wait has been
passed (everything from line 205 on).  `targetExists` tells whether
`document.querySelector(this.cfg.insertTarget)` finds an element at the time
of the insertion re-query (line 267).  Returns the effect trace in statement
order together with the generated thumbnail list.  Both early `return`s
(unsupported media type, insufficient page count) fall out of the function
normally: no error is raised. -/
def createImageListBody (cfg : Config) (convertThumb : String → Nat → String)
    (body : ArtworkBody) (targetExists : Bool) : List Effect × List ThumbnailEntry :=
  -- lines 209–217 create the (detached, hidden) wrapper and ul nodes: no
  -- observable page mutation.
  let pre : List Effect :=
    (if cfg.showLoading then [Effect.setLoading true] else []) ++
      [Effect.fetchMetadata cfg.workId]
  if body.illustType = 0 ∨ body.illustType = 1 ∨ body.illustType = 2 then
    if (body.pageCount : Int) ≥ cfg.imageNumber then
      let useBigURL := resolveBigURL body.urls cfg.imageSize
      let entries := buildImageList convertThumb body.urls.thumb useBigURL body.pageCount
      let clearLoading : List Effect :=
        if cfg.showLoading then [Effect.setLoading false] else []
      -- line 269: the source inserts with the literal 'beforebegin';
      -- `cfg.insertPostion` is never read here.
      let insert : List Effect :=
        if cfg.showImageList ∧ targetExists then
          [Effect.insertList .beforebegin cfg.insertTarget]
        else []
      (pre ++ clearLoading ++ insert ++
        [Effect.configureViewer body.pageCount useBigURL], entries)
    else
      (pre, [])
  else
    (pre, [])

/-- The final state of `loading.show` after running a trace, starting from
`l0`. -/
def loadingAfter (l0 : Bool) : List Effect → Bool
  | [] => l0
  | Effect.setLoading b :: es => loadingAfter b es
  | _ :: es => loadingAfter l0 es

/-- Whether an effect is the widget-construction call. -/
def Effect.isConfigureViewer : Effect → Bool
  | .configureViewer _ _ => true
  | _ => false

/-- Whether an effect is an insertion of the list container into the page. -/
def Effect.isInsertList : Effect → Bool
  | .insertList _ _ => true
  | _ => false

/-- Whether an effect is the metadata fetch. -/
def Effect.isFetchMetadata : Effect → Bool
  | .fetchMetadata _ => true
  | _ => false

/-- Whether a trace constructs the viewer widget. -/
def configuresWidget (tr : List Effect) : Prop :=
  ∃ e ∈ tr, e.isConfigureViewer

/-- Whether a trace inserts the list container into the page. -/
def insertsList (tr : List Effect) : Prop :=
  ∃ e ∈ tr, e.isInsertList

/-- Whether a trace fetches the artwork metadata. -/
def fetchesMetadata (tr : List Effect) : Prop :=
  ∃ e ∈ tr, e.isFetchMetadata

instance (tr : List Effect) : Decidable (configuresWidget tr) :=
  List.decidableBEx _ tr

instance (tr : List Effect) : Decidable (insertsList tr) :=
  List.decidableBEx _ tr

instance (tr : List Effect) : Decidable (fetchesMetadata tr) :=
  List.decidableBEx _ tr

/-! ### The insertion-target wait of `createImageList` (lines 195–203)

When `cfg.showImageList` is true and `document.querySelector(cfg.insertTarget)`
finds nothing, `createImageList` re-schedules itself via
`window.setTimeout(..., 300)` and returns before anything else runs. -/

/-- The `setTimeout` delay, in milliseconds, of the mount retry. -/
def retryDelayMs : Nat := 300

/-- Result of the entry check of `createImageList`: either re-schedule after
`ms` milliseconds, or fall through to the body. -/
inductive StepResult where
  | retryAfter (ms : Nat)
  | proceed
deriving DecidableEq, Repr

/-- Lines 195–203: re-schedule iff a visible list is requested and the
insertion-target selector does not currently resolve. -/
def createImageListCheck (cfg : Config) (targetNow : Bool) : StepResult :=
  if cfg.showImageList ∧ ¬targetNow then .retryAfter retryDelayMs else .proceed

/-- Outcome of running `createImageList` with bounded observation fuel.
`waiting k` means the function is still re-scheduling itself after `k`
attempts (the trace so far is empty: no fetch, no insertion, no widget). -/
inductive CILOutcome where
  | waiting (attempts : Nat)
  | completed (trace : List Effect) (entries : List ThumbnailEntry)
deriving DecidableEq, Repr

/-- Run `createImageList` for at most `fuel` attempts starting at attempt
number `k`.  `resolves j` tells whether the insertion-target selector
resolves at the time of attempt `j` (and, for the attempt that proceeds, at
the insertion re-query of line 267, which happens in the same synchronous
run). -/
def createImageListRun (cfg : Config) (convertThumb : String → Nat → String)
    (body : ArtworkBody) (resolves : Nat → Bool) : Nat → Nat → CILOutcome
  | 0, k => .waiting k
  | fuel + 1, k =>
    match createImageListCheck cfg (resolves k) with
    | .retryAfter _ => createImageListRun cfg convertThumb body resolves fuel (k + 1)
    | .proceed =>
      let r := createImageListBody cfg convertThumb body (resolves k)
      .completed r.1 r.2

/-! ### `download` (lines 509–532) -/

/-- The module-level mutable flags of `store/States` that `download` reads
and writes. -/
structure States where
  busy : Bool
  downloadFromViewer : Bool
deriving DecidableEq, Repr

/-- Observable side effects of `download`: toasts and the `EVT.fire`
dispatch.  `fireCrawlIdList` carries the `(id, type)` pairs of the payload
list. -/
inductive DLEffect where
  | toastError (msg : String)
  | fireCrawlIdList (ids : List (String × String))
  | toastShow (msg : String)
deriving DecidableEq, Repr

/-- `download()`: when the process-wide busy flag is set, show a failure
toast and return; otherwise set `downloadFromViewer`, dispatch the work id
to the crawl pipeline, and show a confirmation toast.  Returns the new
`States` and the effect list in statement order. -/
def download (cfg : Config) (st : States) : States × List DLEffect :=
  if st.busy then
    (st, [DLEffect.toastError "_当前任务尚未完成"])
  else
    ({ st with downloadFromViewer := true },
      [DLEffect.fireCrawlIdList [(cfg.workId, "unknown")],
        DLEffect.toastShow "_已发送下载请求"])

/-- The observable effect trace an outcome has produced so far: a run still
waiting has executed nothing after the entry check. -/
def CILOutcome.trace : CILOutcome → List Effect
  | .waiting _ => []
  | .completed tr _ => tr

/-! ### The `viewed` handlers (lines 319–325 and 372–384)

Two handlers run on each `viewed` event: the listener on `viewerUl` that
forces 100% zoom in fullscreen, and the widget option callback that centers
and preloads the next image. -/

/-- Combined observable result of one `viewed` event at image index
`index`. -/
structure ViewedResult where
  /-- `this.myViewer.zoomTo(1)` when fullscreen: the forced zoom ratio. -/
  zoomTo : Option Int
  /-- whether `handleCenter()` was invoked. -/
  centered : Bool
  /-- the `src` URLs of the `new Image()` preload requests issued. -/
  preloads : List String
deriving DecidableEq, Repr

/-- The `viewed` handlers: center, compute the preload index
(`index + 1` capped at the last page), issue exactly one preload, and force
100% zoom when in fullscreen. -/
def onViewed (pageCount : Nat) (firstBigImgURL : String) (isFullscreen : Bool)
    (index : Nat) : ViewedResult :=
  let idx := if index < pageCount - 1 then index + 1 else index
  { zoomTo := if isFullscreen then some 1 else none
    centered := true
    preloads := [jsReplaceFirst firstBigImgURL "p0" ("p" ++ toString idx)] }

/-! ### Scroll capture and restore (lines 279–317)

The `shown` handler stores `window.scrollX/Y` into the instance fields; the
`hide` handler calls `window.scrollTo` with those fields.  Nothing else
writes the fields. -/

/-- The scroll-relevant state: the viewer's `show` flag and captured
`scrollX`/`scrollY` fields, plus the page's actual scroll position
`winX`/`winY`. -/
structure ScrollState where
  showFlag : Bool
  scrollX : Int
  scrollY : Int
  winX : Int
  winY : Int
deriving DecidableEq, Repr

/-- Events affecting the scroll-relevant state.  `pageScroll` stands for any
change of the page's scroll position between show and hide — in particular
the browser scrolling to the top when a fullscreen transition happens. -/
inductive ScrollEvent where
  | shown
  | hide
  | pageScroll (x y : Int)
deriving DecidableEq, Repr

/-- Whether an event is a mere page-scroll change (anything other than the
viewer's own `shown`/`hide` handlers). -/
def ScrollEvent.isPageScroll : ScrollEvent → Bool
  | .pageScroll _ _ => true
  | _ => false

/-- One step of the scroll-relevant state machine, from the `shown` and
`hide` handlers of `configureViewer`. -/
def scrollStep (s : ScrollState) : ScrollEvent → ScrollState
  | .shown => { s with showFlag := true, scrollX := s.winX, scrollY := s.winY }
  | .hide => { s with showFlag := false, winX := s.scrollX, winY := s.scrollY }
  | .pageScroll x y => { s with winX := x, winY := y }

/-- Run a sequence of scroll events. -/
def scrollRun (s : ScrollState) (evs : List ScrollEvent) : ScrollState :=
  evs.foldl scrollStep s

/-! ### `handleCenter` (lines 423–438) -/

/-- `handleCenter()`: for manga works (`illustType === 1`) whose displayed
image height exceeds the viewport height, move the image by
`(0, img.height / 2 - windowHeight / 2)`; otherwise do nothing.  `workData`
is `none` when the metadata has not been stored yet (the optional chaining
`this.workData?.`).  Heights are rationals since the halving is JS float
division.  Returns the `myViewer.move` argument pair, if any. -/
def handleCenter (workData : Option ArtworkBody) (imgHeight windowHeight : ℚ) :
    Option (ℚ × ℚ) :=
  match workData with
  | none => none
  | some b =>
    if b.illustType = 1 then
      if imgHeight ≤ windowHeight then none
      else some (0, imgHeight / 2 - windowHeight / 2)
    else none

/-! ### The keyboard listeners of `bindEvents` (lines 129–177) -/

/-- A keyboard event as the listeners read it. -/
structure KeyEvent where
  code : String
  altKey : Bool
deriving DecidableEq, Repr

/-- Actions a keydown can trigger. -/
inductive KeyAction where
  | exitFullscreen
  | enterFullscreen
  | addBookmark
  | download
  | stopPropagation
  | viewerPrev (loop : Bool)
  | viewerNext (loop : Bool)
deriving DecidableEq, Repr

/-- The four keydown listeners of `bindEvents`, combined in registration
order: F toggles fullscreen, Alt+B bookmarks, D downloads, ArrowLeft/Right
stop propagation and navigate with wraparound — each gated on `this.show`. -/
def keydownActions (showFlag isFullscreen : Bool) (e : KeyEvent) : List KeyAction :=
  (if e.code = "KeyF" ∧ showFlag then
    [if isFullscreen then KeyAction.exitFullscreen else KeyAction.enterFullscreen]
  else []) ++
  (if e.altKey ∧ e.code = "KeyB" ∧ showFlag then [KeyAction.addBookmark] else []) ++
  (if e.code = "KeyD" ∧ showFlag then [KeyAction.download] else []) ++
  (if (e.code = "ArrowLeft" ∨ e.code = "ArrowRight") ∧ showFlag then
    [KeyAction.stopPropagation,
      if e.code = "ArrowLeft" then KeyAction.viewerPrev true else KeyAction.viewerNext true]
  else [])

/-! ### Concrete sample data for closed evaluations -/

/-- A stand-in for the external `Tools.convertArtworkThumbURL` collaborator
in concrete evaluations. -/
def idConvertThumb : String → Nat → String := fun u _ => u

/-- A sample `urls` object: only `original` and `thumb` available. -/
def wUrls : Urls := ⟨"https://o/88_p0.jpg", "", "", "https://t/88_p0.jpg"⟩

/-- A sample accepted artwork: illustration (type 0) with 3 pages. -/
def wBody : ArtworkBody := ⟨0, 3, wUrls⟩

/-- A sample rejected artwork: media type 3 (novel) is not accepted. -/
def wBodyDenied : ArtworkBody := ⟨3, 5, wUrls⟩

/-- A sample configuration keeping all defaults. -/
def wCfg : Config := defaultConfig "88"

/-- A sample configuration requesting a visible list and the loading
overlay. -/
def wCfgList : Config :=
  { defaultConfig "88" with
      showImageList := true, insertTarget := "main", showLoading := true }

/-! ## Helper lemmas -/

/-- When the activation gate denies, `createImageList` performs only the
loading switch-on (when configured) and the metadata fetch, and produces no
thumbnail entries. -/
theorem createImageListBody_gate_denied (cfg : Config) (ct : String → Nat → String)
    (body : ArtworkBody) (tgt : Bool) (hg : ¬ gatePasses cfg body) :
    createImageListBody cfg ct body tgt =
      ((if cfg.showLoading then [Effect.setLoading true] else []) ++
        [Effect.fetchMetadata cfg.workId], []) := by
  unfold createImageListBody
  by_cases h1 : body.illustType = 0 ∨ body.illustType = 1 ∨ body.illustType = 2
  · have h2 : ¬ ((body.pageCount : Int) ≥ cfg.imageNumber) := fun h2 => hg ⟨h1, h2⟩
    simp only [if_pos h1, if_neg h2]
  · simp only [if_neg h1]

/-- When the activation gate passes, the whole trace and the entry list of
`createImageList`, in statement order. -/
theorem createImageListBody_gate_passed (cfg : Config) (ct : String → Nat → String)
    (body : ArtworkBody) (tgt : Bool) (hg : gatePasses cfg body) :
    createImageListBody cfg ct body tgt =
      ((if cfg.showLoading then [Effect.setLoading true] else []) ++
          [Effect.fetchMetadata cfg.workId] ++
          (if cfg.showLoading then [Effect.setLoading false] else []) ++
          (if cfg.showImageList ∧ tgt then
            [Effect.insertList .beforebegin cfg.insertTarget]
          else []) ++
          [Effect.configureViewer body.pageCount (resolveBigURL body.urls cfg.imageSize)],
        buildImageList ct body.urls.thumb (resolveBigURL body.urls cfg.imageSize)
          body.pageCount) := by
  obtain ⟨h1, h2⟩ := hg
  unfold createImageListBody
  simp only [if_pos h1, if_pos h2]

/-- A successful `listStartsWith` splits the list after the pattern. -/
theorem listStartsWith_eq_append (pat l : List Char) (h : listStartsWith pat l = true) :
    l = pat ++ l.drop pat.length := by
  induction pat generalizing l with
  | nil => simp
  | cons p ps ih =>
    cases l with
    | nil => simp [listStartsWith] at h
    | cons c cs =>
      simp only [listStartsWith, Bool.and_eq_true, decide_eq_true_eq] at h
      obtain ⟨rfl, h2⟩ := h
      simpa using ih cs h2

/-- When `pat` occurs in `l`, the first-occurrence replacement splits `l`
around the first occurrence, uniformly in the replacement. -/
theorem listReplaceFirst_decomp (pat l : List Char) (hp : pat ≠ [])
    (h : listOccurs pat l = true) :
    ∃ b a, l = b ++ pat ++ a ∧ ∀ rep, listReplaceFirst pat rep l = b ++ rep ++ a := by
  induction l with
  | nil =>
    have h2 := listStartsWith_eq_append pat [] (by simpa [listOccurs] using h)
    exact absurd (List.append_eq_nil.mp h2.symm).1 hp
  | cons c cs ih =>
    by_cases hs : listStartsWith pat (c :: cs) = true
    · refine ⟨[], (c :: cs).drop pat.length, ?_, ?_⟩
      · simpa using listStartsWith_eq_append pat (c :: cs) hs
      · intro rep
        simp [listReplaceFirst, hs]
    · have ho : listOccurs pat cs = true := by
        simp only [listOccurs, Bool.or_eq_true] at h
        exact h.resolve_left hs
      obtain ⟨b, a, hl, hr⟩ := ih ho
      refine ⟨c :: b, a, by simp [hl], ?_⟩
      intro rep
      simp [listReplaceFirst, hs, hr rep]

/-- `jsReplaceFirst` with the page marker: when the marker occurs in the
URL, every substituted URL is a fixed prefix, then the replacement, then a
fixed suffix — so two substituted URLs differ only in the replacement. -/
theorem jsReplaceFirst_decomp (s pat : String) (hp : pat.data ≠ [])
    (h : listOccurs pat.data s.data = true) :
    ∃ bef aft : String, s = bef ++ pat ++ aft ∧
      ∀ rep : String, jsReplaceFirst s pat rep = bef ++ rep ++ aft := by
  obtain ⟨b, a, hl, hr⟩ := listReplaceFirst_decomp pat.data s.data hp h
  refine ⟨⟨b⟩, ⟨a⟩, ?_, ?_⟩
  · apply String.ext
    simpa [String.data_append] using hl
  · intro rep
    apply String.ext
    simp [jsReplaceFirst, hr rep.data, String.data_append]

/-- The thumbnail list has one entry per page. -/
theorem buildImageList_length (ct : String → Nat → String) (t u : String) (p : Nat) :
    (buildImageList ct t u p).length = p := by
  simp [buildImageList]

/-- The entry indices are exactly `0, 1, …, p − 1` in order. -/
theorem buildImageList_map_index (ct : String → Nat → String) (t u : String) (p : Nat) :
    (buildImageList ct t u p).map ThumbnailEntry.index = List.range p := by
  simp [buildImageList, List.map_map]
  exact List.map_id _

/-- The entry at position `i` is the entry generated at loop index `i`. -/
theorem buildImageList_get (ct : String → Nat → String) (t u : String) (p i : Nat)
    (hi : i < (buildImageList ct t u p).length) :
    (buildImageList ct t u p).get ⟨i, hi⟩ = mkThumbnailEntry ct t u i := by
  simp [buildImageList, List.get_eq_getElem, List.getElem_map]

/-- A passed gate always reaches the widget-construction call. -/
theorem configuresWidget_of_gate (cfg : Config) (ct : String → Nat → String)
    (body : ArtworkBody) (tgt : Bool) (hg : gatePasses cfg body) :
    configuresWidget (createImageListBody cfg ct body tgt).1 := by
  rw [createImageListBody_gate_passed cfg ct body tgt hg]
  exact ⟨Effect.configureViewer body.pageCount (resolveBigURL body.urls cfg.imageSize),
    by simp, rfl⟩

/-- Without a visible-list request, the list container is never inserted. -/
theorem not_insertsList_of_not_showImageList (cfg : Config) (ct : String → Nat → String)
    (body : ArtworkBody) (tgt : Bool) (hs : cfg.showImageList = false) :
    ¬ insertsList (createImageListBody cfg ct body tgt).1 := by
  by_cases hg : gatePasses cfg body
  · rw [createImageListBody_gate_passed cfg ct body tgt hg]
    rintro ⟨e, he, hins⟩
    by_cases hl : cfg.showLoading <;>
      simp [hl, hs] at he <;>
      rcases he with rfl | rfl | rfl | rfl <;> simp [Effect.isInsertList] at hins
  · rw [createImageListBody_gate_denied cfg ct body tgt hg]
    rintro ⟨e, he, hins⟩
    by_cases hl : cfg.showLoading
    · simp [hl] at he
      rcases he with rfl | rfl <;> simp [Effect.isInsertList] at hins
    · simp [hl] at he
      subst he
      simp [Effect.isInsertList] at hins

/-! ## Claims -/

/-- C1: `createImageList` activates the viewer (builds the thumbnail markup
and constructs the widget) iff the media type is one of the accepted tags
0, 1, 2 and the page count reaches the configured threshold; when the gate
denies, it returns with no widget construction, no thumbnail entries and no
list insertion — the function returns normally, raising no error. -/
theorem createImageList_activation_iff (cfg : Config) (ct : String → Nat → String)
    (body : ArtworkBody) (tgt : Bool) :
    (configuresWidget (createImageListBody cfg ct body tgt).1 ↔ gatePasses cfg body) ∧
    (¬ gatePasses cfg body →
      (createImageListBody cfg ct body tgt).2 = [] ∧
      ¬ insertsList (createImageListBody cfg ct body tgt).1 ∧
      ¬ configuresWidget (createImageListBody cfg ct body tgt).1) := by
  by_cases hg : gatePasses cfg body
  · exact ⟨⟨fun _ => hg, fun _ => configuresWidget_of_gate cfg ct body tgt hg⟩,
      fun h => absurd hg h⟩
  · have hd := createImageListBody_gate_denied cfg ct body tgt hg
    rw [hd]
    by_cases hl : cfg.showLoading <;>
      simp [hl, configuresWidget, insertsList, Effect.isConfigureViewer,
        Effect.isInsertList, hg]

/-- Closed instance of `createImageList_activation_iff`: a novel-type work
(media type 3) yields no entries, no insertion and no widget. -/
theorem createImageList_activation_iff_witness :
    (createImageListBody wCfg idConvertThumb wBodyDenied false).2 = [] ∧
    ¬ insertsList (createImageListBody wCfg idConvertThumb wBodyDenied false).1 ∧
    ¬ configuresWidget (createImageListBody wCfg idConvertThumb wBodyDenied false).1 :=
  (createImageList_activation_iff wCfg idConvertThumb wBodyDenied false).2 (by decide)

/-- C2: when the gate accepts, the thumbnail list has exactly `pageCount`
entries in strictly increasing index order `0..pageCount−1` with no gaps or
duplicates; entry `i`'s full-image URL is the resolved first-page URL with
the page-index marker `p0` substituted by `p{i}` (first occurrence); and
when the marker occurs in that URL, all full URLs share one fixed prefix and
suffix and differ only in the embedded page index. -/
theorem createImageList_entries_spec (cfg : Config) (ct : String → Nat → String)
    (body : ArtworkBody) (tgt : Bool) (hg : gatePasses cfg body) :
    ((createImageListBody cfg ct body tgt).2).length = body.pageCount ∧
    ((createImageListBody cfg ct body tgt).2).map ThumbnailEntry.index =
      List.range body.pageCount ∧
    (∀ i (hi : i < ((createImageListBody cfg ct body tgt).2).length),
      ((createImageListBody cfg ct body tgt).2).get ⟨i, hi⟩ =
        ⟨i, ct body.urls.thumb i,
          jsReplaceFirst (resolveBigURL body.urls cfg.imageSize) "p0"
            ("p" ++ toString i)⟩) ∧
    (listOccurs ("p0" : String).data (resolveBigURL body.urls cfg.imageSize).data = true →
      ∃ bef aft : String,
        ∀ i (hi : i < ((createImageListBody cfg ct body tgt).2).length),
          (((createImageListBody cfg ct body tgt).2).get ⟨i, hi⟩).dataSrc =
            bef ++ ("p" ++ toString i) ++ aft) := by
  have he : (createImageListBody cfg ct body tgt).2 =
      buildImageList ct body.urls.thumb (resolveBigURL body.urls cfg.imageSize)
        body.pageCount := by
    rw [createImageListBody_gate_passed cfg ct body tgt hg]
  refine ⟨?_, ?_, ?_, ?_⟩
  · rw [he]; exact buildImageList_length ..
  · rw [he]; exact buildImageList_map_index ..
  · rw [he]
    intro i hi
    rw [buildImageList_get]
    rfl
  · intro hocc
    obtain ⟨bef, aft, _, hrep⟩ :=
      jsReplaceFirst_decomp (resolveBigURL body.urls cfg.imageSize) "p0" (by decide) hocc
    refine ⟨bef, aft, ?_⟩
    rw [he]
    intro i hi
    rw [buildImageList_get]
    simpa [mkThumbnailEntry] using hrep ("p" ++ toString i)

/-- Closed instance of `createImageList_entries_spec`: a 3-page illustration
yields 3 entries. -/
theorem createImageList_entries_spec_witness :
    ((createImageListBody wCfg idConvertThumb wBody false).2).length = 3 :=
  (createImageList_entries_spec wCfg idConvertThumb wBody false (by decide)).1

/-- C3: counter-evidence — the source inserts the list container with the
hard-coded position `beforebegin` (line 269), never reading the configured
`insertPostion` option: with a visible-list configuration keeping the
default `insertPostion = beforeend`, the emitted trace inserts at
`beforebegin`. -/
theorem createImageList_insert_ignores_insertPostion :
    wCfgList.insertPostion = InsertPosition.beforeend ∧
    (createImageListBody wCfgList idConvertThumb wBody true).1 =
      [Effect.setLoading true, Effect.fetchMetadata "88", Effect.setLoading false,
        Effect.insertList InsertPosition.beforebegin "main",
        Effect.configureViewer 3 "https://o/88_p0.jpg"] := by
  constructor
  · rfl
  · decide

/-- C4: `download` with the busy flag set only shows the failure toast —
no `crawlIdList` dispatch, and the states (including `downloadFromViewer`)
are unchanged; with the flag clear it sets `downloadFromViewer` and
dispatches exactly one event carrying `[{id: workId, type: 'unknown'}]`,
followed by the confirmation toast. -/
theorem download_spec (cfg : Config) (st : States) :
    (st.busy = true →
      download cfg st = (st, [DLEffect.toastError "_当前任务尚未完成"])) ∧
    (st.busy = false →
      download cfg st =
        ({ st with downloadFromViewer := true },
          [DLEffect.fireCrawlIdList [(cfg.workId, "unknown")],
            DLEffect.toastShow "_已发送下载请求"])) := by
  constructor
  · intro h; simp [download, h]
  · intro h; simp [download, h]

/-- Closed instance of `download_spec` covering both the busy and the idle
branch. -/
theorem download_spec_witness :
    download wCfg ⟨true, false⟩ =
      (⟨true, false⟩, [DLEffect.toastError "_当前任务尚未完成"]) ∧
    download wCfg ⟨false, false⟩ =
      (⟨false, true⟩,
        [DLEffect.fireCrawlIdList [("88", "unknown")],
          DLEffect.toastShow "_已发送下载请求"]) :=
  ⟨(download_spec wCfg ⟨true, false⟩).1 rfl,
    (download_spec wCfg ⟨false, false⟩).2 rfl⟩

/-- With a visible list requested and a never-resolving selector, every
attempt re-schedules: after `fuel` attempts the run is still waiting. -/
theorem createImageListRun_waits (cfg : Config) (ct : String → Nat → String)
    (body : ArtworkBody) (resolves : Nat → Bool) (hs : cfg.showImageList = true)
    (hr : ∀ k, resolves k = false) :
    ∀ fuel k, createImageListRun cfg ct body resolves fuel k =
      CILOutcome.waiting (k + fuel) := by
  intro fuel
  induction fuel with
  | zero => intro k; simp [createImageListRun]
  | succ n ih =>
    intro k
    have hc : createImageListCheck cfg (resolves k) = .retryAfter retryDelayMs := by
      simp [createImageListCheck, hr k, hs]
    have ha : k + 1 + n = k + (n + 1) := by omega
    rw [createImageListRun, hc, ih (k + 1), ha]

/-- C5: with `showImageList = true` and an insertion-target selector that
never resolves, `createImageList` re-schedules itself on the fixed 300 ms
delay indefinitely — after any number of attempts it is still waiting, with
an empty effect trace (no metadata fetch, no DOM content) — while with
`showImageList = false` it proceeds on the very first attempt regardless of
the selector, never inserts a list container, and still constructs the
widget whenever the gate accepts. -/
theorem createImageList_mount_wait_spec (cfg : Config) (ct : String → Nat → String)
    (body : ArtworkBody) (resolves : Nat → Bool) :
    (cfg.showImageList = true → (∀ k, resolves k = false) →
      createImageListCheck cfg false = StepResult.retryAfter 300 ∧
      ∀ fuel,
        createImageListRun cfg ct body resolves fuel 0 = CILOutcome.waiting fuel ∧
        (createImageListRun cfg ct body resolves fuel 0).trace = []) ∧
    (cfg.showImageList = false →
      ∀ fuel k,
        createImageListRun cfg ct body resolves (fuel + 1) k =
          CILOutcome.completed (createImageListBody cfg ct body (resolves k)).1
            (createImageListBody cfg ct body (resolves k)).2 ∧
        ¬ insertsList (createImageListBody cfg ct body (resolves k)).1 ∧
        (gatePasses cfg body →
          configuresWidget (createImageListBody cfg ct body (resolves k)).1)) := by
  constructor
  · intro hs hr
    refine ⟨by simp [createImageListCheck, hs, retryDelayMs], fun fuel => ?_⟩
    have hw := createImageListRun_waits cfg ct body resolves hs hr fuel 0
    rw [Nat.zero_add] at hw
    exact ⟨hw, by rw [hw]; rfl⟩
  · intro hs fuel k
    have hc : createImageListCheck cfg (resolves k) = .proceed := by
      simp [createImageListCheck, hs]
    refine ⟨by rw [createImageListRun, hc], ?_, ?_⟩
    · exact not_insertsList_of_not_showImageList cfg ct body (resolves k) hs
    · exact fun hg => configuresWidget_of_gate cfg ct body (resolves k) hg

/-- Closed instance of `createImageList_mount_wait_spec`: with a visible
list and a dead selector the run is still waiting after 4 attempts; without
a visible list it completes on the first attempt. -/
theorem createImageList_mount_wait_spec_witness :
    createImageListRun wCfgList idConvertThumb wBody (fun _ => false) 4 0 =
      CILOutcome.waiting 4 ∧
    createImageListRun wCfg idConvertThumb wBody (fun _ => false) 1 0 =
      CILOutcome.completed (createImageListBody wCfg idConvertThumb wBody false).1
        (createImageListBody wCfg idConvertThumb wBody false).2 :=
  ⟨(((createImageList_mount_wait_spec wCfgList idConvertThumb wBody
        (fun _ => false)).1 rfl (fun _ => rfl)).2 4).1,
    (((createImageList_mount_wait_spec wCfg idConvertThumb wBody
        (fun _ => false)).2 rfl 0 0)).1⟩

/-- C6: each `viewed` event at image index `i` issues exactly one preload
request — for `i < pageCount − 1` its URL is the first-page URL with the
page marker substituted by `i + 1` — invokes the centering logic, and
forces the zoom level to exactly 100% iff the document is in fullscreen. -/
theorem onViewed_spec (p : Nat) (url : String) (fs : Bool) (i : Nat) :
    (onViewed p url fs i).preloads.length = 1 ∧
    (onViewed p url fs i).centered = true ∧
    (fs = true → (onViewed p url fs i).zoomTo = some 1) ∧
    (fs = false → (onViewed p url fs i).zoomTo = none) ∧
    (i < p - 1 →
      (onViewed p url fs i).preloads =
        [jsReplaceFirst url "p0" ("p" ++ toString (i + 1))]) := by
  unfold onViewed
  refine ⟨by simp, rfl, ?_, ?_, ?_⟩ <;> intro h <;> simp [h]

/-- Closed instance of `onViewed_spec`: viewing page 0 of 3 in fullscreen
zooms to 100% and preloads page 1. -/
theorem onViewed_spec_witness :
    (onViewed 3 "https://o/88_p0.jpg" true 0).zoomTo = some 1 ∧
    (onViewed 3 "https://o/88_p0.jpg" true 0).preloads = ["https://o/88_p1.jpg"] := by
  have h1 := (onViewed_spec 3 "https://o/88_p0.jpg" true 0).2.2.1 rfl
  have h2 := (onViewed_spec 3 "https://o/88_p0.jpg" true 0).2.2.2.2 (by decide)
  refine ⟨h1, ?_⟩
  rw [h2]
  decide

/-- A run of page-scroll events leaves the captured pair untouched. -/
theorem scrollRun_pageScroll_preserves (evs : List ScrollEvent)
    (h : ∀ e ∈ evs, e.isPageScroll = true) :
    ∀ s0 : ScrollState, (scrollRun s0 evs).scrollX = s0.scrollX ∧
      (scrollRun s0 evs).scrollY = s0.scrollY := by
  induction evs with
  | nil => exact fun s0 => ⟨rfl, rfl⟩
  | cons e es ih =>
    intro s0
    have he := h e (by simp)
    have hes : ∀ x ∈ es, x.isPageScroll = true := fun x hx => h x (by simp [hx])
    cases e with
    | pageScroll x y =>
      simpa [scrollRun, scrollStep] using ih hes (scrollStep s0 (.pageScroll x y))
    | shown => simp [ScrollEvent.isPageScroll] at he
    | hide => simp [ScrollEvent.isPageScroll] at he

/-- C7: the scroll pair is captured exactly when `shown` fires (it equals
the page scroll position at that moment), and after any sequence of
page-scroll changes — such as those caused by fullscreen transitions —
followed by the `hide` handler, the page scroll position equals that
captured pair. -/
theorem scroll_restore_spec (s : ScrollState) (evs : List ScrollEvent)
    (h : ∀ e ∈ evs, e.isPageScroll = true) :
    (scrollStep s .shown).scrollX = s.winX ∧
    (scrollStep s .shown).scrollY = s.winY ∧
    (scrollStep (scrollRun (scrollStep s .shown) evs) .hide).winX = s.winX ∧
    (scrollStep (scrollRun (scrollStep s .shown) evs) .hide).winY = s.winY := by
  obtain ⟨hx, hy⟩ := scrollRun_pageScroll_preserves evs h (scrollStep s .shown)
  exact ⟨rfl, rfl, hx, hy⟩

/-- Closed instance of `scroll_restore_spec`: a fullscreen exit scrolling
the page to the top does not defeat the restore. -/
theorem scroll_restore_spec_witness :
    (scrollStep (scrollRun (scrollStep ⟨false, 0, 0, 10, 20⟩ .shown)
        [.pageScroll 0 0, .pageScroll 5 7]) .hide).winX = 10 ∧
    (scrollStep (scrollRun (scrollStep ⟨false, 0, 0, 10, 20⟩ .shown)
        [.pageScroll 0 0, .pageScroll 5 7]) .hide).winY = 20 := by
  have h := scroll_restore_spec ⟨false, 0, 0, 10, 20⟩
    [.pageScroll 0 0, .pageScroll 5 7] (by decide)
  exact ⟨h.2.2.1, h.2.2.2⟩

/-- C8: `handleCenter` moves the image only for sequential-page works
(`illustType = 1`) whose displayed height exceeds the viewport height, and
then vertically by exactly `(imageHeight − viewportHeight) / 2`; in every
other case — height not exceeding the viewport, any other media type, or no
stored metadata — it performs no move. -/
theorem handleCenter_spec (wd : Option ArtworkBody) (h w : ℚ) :
    (∀ b, wd = some b → b.illustType = 1 → w < h →
      handleCenter wd h w = some (0, (h - w) / 2)) ∧
    (∀ b, wd = some b → b.illustType = 1 → h ≤ w → handleCenter wd h w = none) ∧
    (∀ b, wd = some b → b.illustType ≠ 1 → handleCenter wd h w = none) ∧
    (wd = none → handleCenter wd h w = none) := by
  refine ⟨?_, ?_, ?_, ?_⟩
  · rintro b rfl h1 h2
    have hnle : ¬ h ≤ w := not_le.mpr h2
    simp [handleCenter, h1, hnle, sub_div]
  · rintro b rfl h1 h2
    simp [handleCenter, h1, h2]
  · rintro b rfl h1
    simp [handleCenter, h1]
  · rintro rfl; rfl

/-- Closed instance of `handleCenter_spec`: a manga image of display height
10 in a viewport of height 4 is moved by (0, 3). -/
theorem handleCenter_spec_witness :
    handleCenter (some ⟨1, 2, wUrls⟩) 10 4 = some (0, 3) := by
  have h := (handleCenter_spec (some ⟨1, 2, wUrls⟩) 10 4).1 ⟨1, 2, wUrls⟩ rfl rfl
    (by norm_num)
  rw [h]
  norm_num

/-- C9: while the viewer is not showing, every registered key handler is a
no-op — F requests no fullscreen change, D dispatches no download, Alt+B
triggers no bookmark, and the arrow keys neither navigate nor stop event
propagation; while showing, F toggles fullscreen (exit when fullscreen,
enter otherwise) and the arrow keys stop propagation and navigate with
wraparound. -/
theorem keydown_gating_spec (fs : Bool) (e : KeyEvent) (a : Bool) :
    keydownActions false fs e = [] ∧
    keydownActions true fs ⟨"KeyF", a⟩ =
      [if fs then KeyAction.exitFullscreen else KeyAction.enterFullscreen] ∧
    keydownActions true fs ⟨"ArrowLeft", a⟩ =
      [KeyAction.stopPropagation, KeyAction.viewerPrev true] ∧
    keydownActions true fs ⟨"ArrowRight", a⟩ =
      [KeyAction.stopPropagation, KeyAction.viewerNext true] ∧
    keydownActions true fs ⟨"KeyD", a⟩ = [KeyAction.download] ∧
    keydownActions true fs ⟨"KeyB", true⟩ = [KeyAction.addBookmark] := by
  refine ⟨by simp [keydownActions], ?_, ?_, ?_, ?_, ?_⟩ <;>
    cases fs <;> cases a <;> decide

/-- C10: with `showLoading` enabled and the activation gate denying, the
loading indicator is switched on before the metadata fetch and never
switched off: the effect trace is exactly `[loading on, fetch]`, so the
loading state afterwards is `true` regardless of its initial value. -/
theorem loading_left_on_when_gate_denies (cfg : Config) (ct : String → Nat → String)
    (body : ArtworkBody) (tgt : Bool) (l0 : Bool) (hs : cfg.showLoading = true)
    (hg : ¬ gatePasses cfg body) :
    (createImageListBody cfg ct body tgt).1 =
      [Effect.setLoading true, Effect.fetchMetadata cfg.workId] ∧
    loadingAfter l0 (createImageListBody cfg ct body tgt).1 = true := by
  have hd := createImageListBody_gate_denied cfg ct body tgt hg
  constructor
  · rw [hd]; simp [hs]
  · rw [hd]; simp [hs, loadingAfter]

/-- Closed instance of `loading_left_on_when_gate_denies`: a denied work
with the loading overlay requested leaves the overlay on. -/
theorem loading_left_on_when_gate_denies_witness :
    (createImageListBody wCfgList idConvertThumb wBodyDenied true).1 =
      [Effect.setLoading true, Effect.fetchMetadata "88"] ∧
    loadingAfter false (createImageListBody wCfgList idConvertThumb wBodyDenied true).1 =
      true :=
  loading_left_on_when_gate_denies wCfgList idConvertThumb wBodyDenied true false rfl
    (by decide)

end ImageViewer
